import Mathlib

/-!
Verification of the `/process/` orchestration in `src/backend/fastapi_backend.py`.

The endpoint validates a multipart image upload, stores it under a
uuid-generated `.jpg` name, runs OCR on the (RGB-normalized) decoded image,
and — when text is found — translates the Kannada text to English and Hindi
and synthesizes speech for all three languages, returning a JSON payload of
texts and URLs.

The embedding below is shallow: external collaborators (PIL decoding, the
OCR adapter, the translator) are parameters of an `Env` record; each external
invocation of the orchestrator is recorded as an `Event` in a trace, in the
order the source launches it.  Filesystem paths are modelled as lists of path
components (so that `os.path.join` / `os.path.basename` are append / last
component), while filenames and URLs remain strings, built exactly as the
f-strings in the source build them.  A separate small timing model captures
the `asyncio.create_task` / `gather` structure of lines 103-111.
-/

namespace OCRApp

/-- A decoded raster image: its pixel `mode` (e.g. `"RGB"`, `"L"`, `"RGBA"`)
and its pixel data.  Models the PIL image handled at lines 78-80. -/
structure Image where
  mode : String
  data : List Nat
deriving DecidableEq

/-- `Image.convert m` models PIL's `Image.convert(m)` (used at line 80):
it re-encodes the image into pixel mode `m`. -/
def Image.convert (img : Image) (m : String) : Image :=
  { img with mode := m }

/-- The multipart upload received by `POST /process/`: the declared content
type and the raw bytes obtained by `await file.read()` (lines 62-68). -/
structure Request where
  content_type : String
  contents : List Nat
deriving DecidableEq

/-- The four `uuid.uuid4().hex` values drawn by one execution of `process`,
in source order: `u0` for the upload filename (line 73), `u1`, `u2`, `u3`
for the Kannada / English / Hindi audio filenames (lines 98-100). -/
structure Uuids where
  u0 : String
  u1 : String
  u2 : String
  u3 : String
deriving DecidableEq

/-- The external collaborators invoked by the orchestrator:
`decode` is `PIL.Image.open` on the uploaded bytes (line 78),
`extract_text` is the OCR adapter (line 83, called with the image and the
upload filename), `translate` is
`GoogleTranslator(source="kn", target=t).translate` (lines 47-50).
The speech adapter `text_to_speech` returns nothing, so only its
invocations (trace events) are modelled. -/
structure Env where
  decode : List Nat → Image
  extract_text : Image → String → String
  translate : String → String → String

/-- One external invocation or filesystem effect performed by `process`,
recorded in launch order. -/
inductive Event where
  | fileWrite (path : List String) (contents : List Nat)
  | ocrCall (img : Image) (filename : String)
  | translateCall (text source target : String)
  | ttsCall (text lang : String) (path : List String)
deriving DecidableEq

/-- The outcome of one request: either an `HTTPException` (status, detail)
or a 200 payload. -/
structure Response where
  image_url : String
  text_kn : String
  audio_kn : Option String
  text_en : String
  audio_en : Option String
  text_hi : String
  audio_hi : Option String
  error : Option String
deriving DecidableEq

/-- Result of the `process` operation. -/
inductive PResult where
  | httpError (status : Nat) (detail : String)
  | ok (payload : Response)
deriving DecidableEq

/-- Python's `str.startswith`: `startswith s pre` is true when `pre` is a
prefix of `s` (used on the content type at line 62). -/
def startswith (s pre : String) : Bool := pre.data.isPrefixOf s.data

/-- Python's `str.strip()` with no argument: remove leading and trailing
whitespace (used on the OCR result at line 85). -/
def strip (s : String) : String :=
  ⟨List.reverse (List.dropWhile Char.isWhitespace
      (List.reverse (List.dropWhile Char.isWhitespace s.data)))⟩

/-- `STATIC_DIR = os.path.join(BASE_DIR, "static")`; the base directory
(`os.getcwd()`) is a parameter. -/
def STATIC_DIR (base : List String) : List String := base ++ ["static"]

/-- `AUDIO_DIR = os.path.join(STATIC_DIR, "audio")`. -/
def AUDIO_DIR (base : List String) : List String := STATIC_DIR base ++ ["audio"]

/-- `UPLOADS_DIR = os.path.join(STATIC_DIR, "uploads")`. -/
def UPLOADS_DIR (base : List String) : List String := STATIC_DIR base ++ ["uploads"]

/-- `os.path.basename` on a component-list path: its last component. -/
def os_basename (p : List String) : String := p.getLastD ""

/-- `upload_filename = f"{uuid.uuid4().hex}.jpg"` (line 73). -/
def uploadFilename (us : Uuids) : String := us.u0 ++ ".jpg"

/-- Lines 79-80: `if image.mode != "RGB": image = image.convert("RGB")`. -/
def normalizeRGB (img : Image) : Image :=
  if img.mode ≠ "RGB" then img.convert "RGB" else img

/-- The image handed to the OCR adapter: the decoded upload after RGB
normalization (lines 78-80). -/
def ocrInput (env : Env) (req : Request) : Image :=
  normalizeRGB (env.decode req.contents)

/-- `text_kn = extract_text(image, upload_filename)` (line 83). -/
def ocrText (env : Env) (us : Uuids) (req : Request) : String :=
  env.extract_text (ocrInput env req) (uploadFilename us)

/-- Filename part of `audio_kn_file = f"{uuid.uuid4().hex}_kn.mp3"` (line 98). -/
def audioKnName (us : Uuids) : String := us.u1 ++ "_kn.mp3"

/-- Filename part of `audio_en_file = f"{uuid.uuid4().hex}_en.mp3"` (line 99). -/
def audioEnName (us : Uuids) : String := us.u2 ++ "_en.mp3"

/-- Filename part of `audio_hi_file = f"{uuid.uuid4().hex}_hi.mp3"` (line 100). -/
def audioHiName (us : Uuids) : String := us.u3 ++ "_hi.mp3"

/-- The `process` endpoint (lines 61-122), as a function of the external
environment, the base directory, the uuid draws and the request.  Returns
the HTTP result and the trace of external invocations in launch order:
* line 62: content type must start with `"image/"`, else 400;
* line 66: body must be non-empty, else 400;
* lines 73-76: write the bytes under `UPLOADS_DIR/{u0}.jpg`;
* lines 78-83: decode, normalize to RGB, run OCR;
* lines 85-95: blank text short-circuits to the "No text found" payload;
* lines 98-122: otherwise translate to `en` and `hi`, synthesize `kn`, `en`,
  `hi` audio, and return the full payload. -/
def process (env : Env) (base : List String) (us : Uuids) (req : Request) :
    PResult × List Event :=
  if !(startswith req.content_type "image/") then
    (.httpError 400 "File must be an image", [])
  else if req.contents.isEmpty then
    (.httpError 400 "Empty file", [])
  else
    let upload_path := UPLOADS_DIR base ++ [uploadFilename us]
    let writeEv := Event.fileWrite upload_path req.contents
    let image := ocrInput env req
    let text_kn := ocrText env us req
    let ocrEv := Event.ocrCall image (uploadFilename us)
    if strip text_kn = "" then
      (.ok { image_url := "/static/uploads/" ++ uploadFilename us
             text_kn := ""
             audio_kn := none
             text_en := ""
             audio_en := none
             text_hi := ""
             audio_hi := none
             error := some "No text found" },
       [writeEv, ocrEv])
    else
      let audio_kn_file := AUDIO_DIR base ++ [audioKnName us]
      let audio_en_file := AUDIO_DIR base ++ [audioEnName us]
      let audio_hi_file := AUDIO_DIR base ++ [audioHiName us]
      let text_en := env.translate text_kn "en"
      let text_hi := env.translate text_kn "hi"
      (.ok { image_url := "/static/uploads/" ++ uploadFilename us
             text_kn := text_kn
             audio_kn := some ("/static/audio/" ++ os_basename audio_kn_file)
             text_en := text_en
             audio_en := some ("/static/audio/" ++ os_basename audio_en_file)
             text_hi := text_hi
             audio_hi := some ("/static/audio/" ++ os_basename audio_hi_file)
             error := none },
       [writeEv, ocrEv,
        Event.translateCall text_kn "kn" "en",
        Event.translateCall text_kn "kn" "hi",
        Event.ttsCall text_kn "kn" audio_kn_file,
        Event.ttsCall text_en "en" audio_en_file,
        Event.ttsCall text_hi "hi" audio_hi_file])

/-- Whether an event is an OCR invocation. -/
def Event.isOcr : Event → Bool
  | .ocrCall _ _ => true
  | _ => false

/-- Whether an event is a translation invocation (any target). -/
def Event.isTranslate : Event → Bool
  | .translateCall _ _ _ => true
  | _ => false

/-- Whether an event is a translation invocation with the given target. -/
def Event.isTranslateTo (tgt : String) : Event → Bool
  | .translateCall _ _ t => t == tgt
  | _ => false

/-- Whether an event is a speech-synthesis invocation. -/
def Event.isTts : Event → Bool
  | .ttsCall _ _ _ => true
  | _ => false

/-- Whether an event is a filesystem write of the upload. -/
def Event.isWrite : Event → Bool
  | .fileWrite _ _ => true
  | _ => false

/-- Whether an event is a speech-synthesis invocation for the given language. -/
def Event.isTtsLang (l : String) : Event → Bool
  | .ttsCall _ lang _ => lang == l
  | _ => false

/-- The basename of the file an event touches (empty for non-file events). -/
def Event.pathName : Event → String
  | .fileWrite p _ => os_basename p
  | .ttsCall _ _ p => os_basename p
  | _ => ""

/-- The filename named by `path` ends in the string `suf`. -/
def nameHasSuffix (path : List String) (suf : String) : Prop :=
  List.IsSuffix suf.data (os_basename path).data

/-!
## Timing model of the concurrent pipeline (lines 103-111)

The non-blank path of `process` runs five offloaded external calls:

* line 104: `trans_en_task = asyncio.create_task(async_translate(text_kn, "en"))`
* line 105: `trans_hi_task = asyncio.create_task(async_translate(text_kn, "hi"))`
* line 106: `tts_kn_task  = asyncio.create_task(async_tts(text_kn, "kn", ...))`
* line 108: `await asyncio.gather(trans_en_task, trans_hi_task)`
* line 109: `tts_en_task = asyncio.create_task(async_tts(text_en, "en", ...))`
* line 110: `tts_hi_task = asyncio.create_task(async_tts(text_hi, "hi", ...))`
* line 111: `await asyncio.gather(tts_kn_task, tts_en_task, tts_hi_task)`

Each task runs independently in an executor worker; given a duration for
each call, a task launched at time `t` with duration `d` finishes at
`t + d`, and an `await gather` resumes the orchestrator at the maximum of
the finish times of the gathered tasks.  The three wave-1 tasks are all
launched before any await, hence at time `0`.
-/

/-- Durations (abstract time units) of the five offloaded external calls of
one non-blank-path execution. -/
structure Durations where
  trans_en : Nat
  trans_hi : Nat
  tts_kn : Nat
  tts_en : Nat
  tts_hi : Nat
deriving DecidableEq

/-- Finish time of `trans_en_task` (launched at 0, line 104). -/
def transEnFinish (d : Durations) : Nat := d.trans_en

/-- Finish time of `trans_hi_task` (launched at 0, line 105). -/
def transHiFinish (d : Durations) : Nat := d.trans_hi

/-- Finish time of `tts_kn_task` (launched at 0, line 106). -/
def ttsKnFinish (d : Durations) : Nat := d.tts_kn

/-- The time wave 2 is launched: line 108 awaits only the two translation
tasks, so `tts_en_task` and `tts_hi_task` are created as soon as both
translations have finished. -/
def wave2LaunchTime (d : Durations) : Nat :=
  max (transEnFinish d) (transHiFinish d)

/-- Finish time of `tts_en_task` (launched at `wave2LaunchTime`, line 109). -/
def ttsEnFinish (d : Durations) : Nat := wave2LaunchTime d + d.tts_en

/-- Finish time of `tts_hi_task` (launched at `wave2LaunchTime`, line 110). -/
def ttsHiFinish (d : Durations) : Nat := wave2LaunchTime d + d.tts_hi

/-- The time all three wave-1 tasks (two translations and the Kannada
synthesis) have finished. -/
def wave1AllFinish (d : Durations) : Nat :=
  max (max (transEnFinish d) (transHiFinish d)) (ttsKnFinish d)

/-- The time the response is assembled: line 111 awaits all three synthesis
tasks. -/
def responseTime (d : Durations) : Nat :=
  max (ttsKnFinish d) (max (ttsEnFinish d) (ttsHiFinish d))

/-!
## Helper lemmas on string concatenation
-/

/-- Appending the same suffix to different strings gives different strings. -/
theorem append_ne_of_left_ne {a b : String} (t : String) (h : a ≠ b) :
    a ++ t ≠ b ++ t := by
  intro he
  have hd := congrArg String.data he
  simp only [String.data_append] at hd
  exact h (String.ext (List.append_cancel_right hd))

/-- Appending different suffixes of equal length gives different strings,
whatever the stems are. -/
theorem append_ne_of_suffix_ne {a b t1 t2 : String}
    (hl : t1.length = t2.length) (ht : t1 ≠ t2) : a ++ t1 ≠ b ++ t2 := by
  intro he
  have hd : a.data ++ t1.data = b.data ++ t2.data := by
    have := congrArg String.data he
    simpa only [String.data_append] using this
  have h2 := (List.append_inj' hd hl).2
  exact ht (String.ext h2)

/-- A string suffix of `a ++ t1` whose length equals that of `t1` is `t1`. -/
theorem suffix_eq_of_append {a t1 t2 : String}
    (h : List.IsSuffix t2.data (a ++ t1).data) (hl : t2.length = t1.length) :
    t2 = t1 := by
  obtain ⟨pre, hpre⟩ := h
  rw [String.data_append] at hpre
  have h2 := (List.append_inj' hpre hl).2
  exact String.ext h2

/-- A concrete environment used to instantiate the theorems below:
decoding yields a grayscale image, OCR always reads `"hello"`, and
translation tags the text with the target language. -/
def envW : Env :=
  { decode := fun bs => ⟨"L", bs⟩
    extract_text := fun _ _ => "hello"
    translate := fun t tgt => tgt ++ ":" ++ t }

/-- A concrete environment whose OCR result is whitespace only. -/
def envBlank : Env :=
  { decode := fun bs => ⟨"L", bs⟩
    extract_text := fun _ _ => "  "
    translate := fun t tgt => tgt ++ ":" ++ t }

/-- Concrete uuid draws for instantiating the theorems below. -/
def usW : Uuids := ⟨"a0", "a1", "a2", "a3"⟩

/-- A second, disjoint set of concrete uuid draws. -/
def usV : Uuids := ⟨"b0", "b1", "b2", "b3"⟩

/-- A concrete valid request. -/
def reqW : Request := ⟨"image/png", [7, 7]⟩

/-- RGB normalization always yields an image in RGB mode. -/
theorem normalizeRGB_mode (img : Image) : (normalizeRGB img).mode = "RGB" := by
  unfold normalizeRGB
  split
  · rfl
  · next h => simpa using h

/-- C1 (counterexample): it is not the case that wave 2 starts only after
every wave-1 task has completed.  With translation durations 0 and a Kannada
synthesis duration of 1, line 108 awaits only the two translation tasks, so
the wave-2 synthesis tasks are launched at time 0 while `tts_kn_task` is
still running until time 1. -/
theorem C1_counterexample_wave2_before_ttsKn :
    ¬ wave1AllFinish ⟨0, 0, 1, 0, 0⟩ ≤ wave2LaunchTime ⟨0, 0, 1, 0, 0⟩ := by
  decide

/-- C1 (amended): the orchestrator launches the two translations and the
Kannada synthesis concurrently, then launches the two remaining synthesis
tasks as soon as both translations (but not necessarily the Kannada
synthesis) have completed; the response is assembled only after all three
synthesis tasks have completed. -/
theorem C1_two_wave_schedule (d : Durations) :
    wave2LaunchTime d = max (transEnFinish d) (transHiFinish d) ∧
    transEnFinish d ≤ wave2LaunchTime d ∧
    transHiFinish d ≤ wave2LaunchTime d ∧
    ttsKnFinish d ≤ responseTime d ∧
    ttsEnFinish d ≤ responseTime d ∧
    ttsHiFinish d ≤ responseTime d := by
  unfold responseTime wave2LaunchTime ttsKnFinish ttsEnFinish ttsHiFinish
    transEnFinish transHiFinish
  omega

/-- C2: for every accepted request whose extracted OCR text is blank, the
operation returns the payload with empty text fields, `none` audio fields
and the error message `"No text found"`, and its trace contains no
translation and no speech-synthesis invocation. -/
theorem C2_blank_text_short_circuit
    (env : Env) (base : List String) (us : Uuids) (req : Request)
    (h1 : startswith req.content_type "image/" = true)
    (h2 : req.contents.isEmpty = false)
    (h3 : strip (ocrText env us req) = "") :
    (process env base us req).1 = .ok
      { image_url := "/static/uploads/" ++ uploadFilename us
        text_kn := ""
        audio_kn := none
        text_en := ""
        audio_en := none
        text_hi := ""
        audio_hi := none
        error := some "No text found" } ∧
    ∀ e ∈ (process env base us req).2,
      e.isTranslate = false ∧ e.isTts = false := by
  simp only [process, h1, h2, h3, Bool.not_true, Bool.false_eq_true, if_false,
    if_true, reduceIte]
  constructor
  · trivial
  · intro e he
    simp only [List.mem_cons, List.not_mem_nil, or_false] at he
    rcases he with rfl | rfl <;> exact ⟨rfl, rfl⟩

/-- C2 witness: a concrete whitespace-OCR request short-circuits. -/
theorem C2_blank_text_short_circuit_witness :
    (process envBlank [] usW reqW).1 = .ok
      { image_url := "/static/uploads/" ++ uploadFilename usW
        text_kn := ""
        audio_kn := none
        text_en := ""
        audio_en := none
        text_hi := ""
        audio_hi := none
        error := some "No text found" } ∧
    ∀ e ∈ (process envBlank [] usW reqW).2,
      e.isTranslate = false ∧ e.isTts = false :=
  C2_blank_text_short_circuit envBlank [] usW reqW (by decide) (by decide)
    (by decide)

/-- C3: a request whose content type does not begin with `"image/"` fails
with status 400 and an empty trace (no file written); a request with an
image content type and an empty body fails with status 400 (and also writes
nothing). -/
theorem C3_validation_rejects
    (env : Env) (base : List String) (us : Uuids) (req : Request) :
    (startswith req.content_type "image/" = false →
      process env base us req = (.httpError 400 "File must be an image", [])) ∧
    (startswith req.content_type "image/" = true → req.contents.isEmpty = true →
      process env base us req = (.httpError 400 "Empty file", [])) := by
  constructor
  · intro h
    simp [process, h]
  · intro h1 h2
    simp [process, h1, h2]

/-- C3 witness: a concrete text upload and a concrete empty image upload
are both rejected with status 400 and no trace. -/
theorem C3_validation_rejects_witness :
    process envW [] usW ⟨"text/plain", [7]⟩ =
      (.httpError 400 "File must be an image", []) ∧
    process envW [] usW ⟨"image/png", []⟩ =
      (.httpError 400 "Empty file", []) :=
  ⟨(C3_validation_rejects envW [] usW ⟨"text/plain", [7]⟩).1 (by decide),
   (C3_validation_rejects envW [] usW ⟨"image/png", []⟩).2 (by decide)
     (by decide)⟩

/-- C4: for every accepted request whose extracted text is non-blank, the
payload carries the image URL, the non-empty source text, a (non-null)
source audio URL, the two translated texts with their two audio URLs, and a
null error field. -/
theorem C4_success_payload
    (env : Env) (base : List String) (us : Uuids) (req : Request)
    (h1 : startswith req.content_type "image/" = true)
    (h2 : req.contents.isEmpty = false)
    (h3 : strip (ocrText env us req) ≠ "") :
    (process env base us req).1 = .ok
      { image_url := "/static/uploads/" ++ uploadFilename us
        text_kn := ocrText env us req
        audio_kn := some ("/static/audio/" ++ audioKnName us)
        text_en := env.translate (ocrText env us req) "en"
        audio_en := some ("/static/audio/" ++ audioEnName us)
        text_hi := env.translate (ocrText env us req) "hi"
        audio_hi := some ("/static/audio/" ++ audioHiName us)
        error := none } ∧
    ocrText env us req ≠ "" := by
  constructor
  · simp [process, h1, h2, h3, os_basename, AUDIO_DIR, STATIC_DIR]
  · intro h0
    apply h3
    rw [h0]
    rfl

/-- C4 witness: a concrete request with OCR text `"hello"` yields the full
payload. -/
theorem C4_success_payload_witness :
    (process envW [] usW reqW).1 = .ok
      { image_url := "/static/uploads/" ++ uploadFilename usW
        text_kn := ocrText envW usW reqW
        audio_kn := some ("/static/audio/" ++ audioKnName usW)
        text_en := envW.translate (ocrText envW usW reqW) "en"
        audio_en := some ("/static/audio/" ++ audioEnName usW)
        text_hi := envW.translate (ocrText envW usW reqW) "hi"
        audio_hi := some ("/static/audio/" ++ audioHiName usW)
        error := none } ∧
    ocrText envW usW reqW ≠ "" :=
  C4_success_payload envW [] usW reqW (by decide) (by decide) (by decide)

/-- C5: in every accepted execution the OCR adapter is invoked exactly once,
and on the non-blank path each translation (`en`, `hi`) and each speech
synthesis (`kn`, `en`, `hi`) is invoked exactly once; there is no retry. -/
theorem C5_each_call_once
    (env : Env) (base : List String) (us : Uuids) (req : Request)
    (h1 : startswith req.content_type "image/" = true)
    (h2 : req.contents.isEmpty = false) :
    ((process env base us req).2.filter Event.isOcr).length = 1 ∧
    (strip (ocrText env us req) ≠ "" →
      ((process env base us req).2.filter (Event.isTranslateTo "en")).length = 1 ∧
      ((process env base us req).2.filter (Event.isTranslateTo "hi")).length = 1 ∧
      ((process env base us req).2.filter (Event.isTtsLang "kn")).length = 1 ∧
      ((process env base us req).2.filter (Event.isTtsLang "en")).length = 1 ∧
      ((process env base us req).2.filter (Event.isTtsLang "hi")).length = 1) := by
  by_cases hb : strip (ocrText env us req) = ""
  · constructor
    · simp [process, h1, h2, hb, Event.isOcr]
    · intro h3
      exact absurd hb h3
  · constructor
    · simp [process, h1, h2, hb, Event.isOcr]
    · intro _
      refine ⟨?_, ?_, ?_, ?_, ?_⟩ <;>
        simp [process, h1, h2, hb, Event.isTranslateTo, Event.isTtsLang]

/-- C5 witness: concrete counts for a concrete successful request. -/
theorem C5_each_call_once_witness :
    ((process envW [] usW reqW).2.filter Event.isOcr).length = 1 ∧
    (strip (ocrText envW usW reqW) ≠ "" →
      ((process envW [] usW reqW).2.filter (Event.isTranslateTo "en")).length = 1 ∧
      ((process envW [] usW reqW).2.filter (Event.isTranslateTo "hi")).length = 1 ∧
      ((process envW [] usW reqW).2.filter (Event.isTtsLang "kn")).length = 1 ∧
      ((process envW [] usW reqW).2.filter (Event.isTtsLang "en")).length = 1 ∧
      ((process envW [] usW reqW).2.filter (Event.isTtsLang "hi")).length = 1) :=
  C5_each_call_once envW [] usW reqW (by decide) (by decide)

/-- C6: on the non-blank path, each of the three synthesis invocations is in
the trace with the matching text, language code and file suffix, and every
synthesis invocation whose file name ends in `_kn.mp3` (resp. `_en.mp3`,
`_hi.mp3`) received the source Kannada text with language `"kn"` (resp. the
English translation with `"en"`, the Hindi translation with `"hi"`). -/
theorem C6_audio_language_matches_text
    (env : Env) (base : List String) (us : Uuids) (req : Request)
    (h1 : startswith req.content_type "image/" = true)
    (h2 : req.contents.isEmpty = false)
    (h3 : strip (ocrText env us req) ≠ "") :
    (Event.ttsCall (ocrText env us req) "kn" (AUDIO_DIR base ++ [audioKnName us])
        ∈ (process env base us req).2 ∧
      nameHasSuffix (AUDIO_DIR base ++ [audioKnName us]) "_kn.mp3") ∧
    (Event.ttsCall (env.translate (ocrText env us req) "en") "en"
        (AUDIO_DIR base ++ [audioEnName us]) ∈ (process env base us req).2 ∧
      nameHasSuffix (AUDIO_DIR base ++ [audioEnName us]) "_en.mp3") ∧
    (Event.ttsCall (env.translate (ocrText env us req) "hi") "hi"
        (AUDIO_DIR base ++ [audioHiName us]) ∈ (process env base us req).2 ∧
      nameHasSuffix (AUDIO_DIR base ++ [audioHiName us]) "_hi.mp3") ∧
    ∀ text lang path, Event.ttsCall text lang path ∈ (process env base us req).2 →
      (nameHasSuffix path "_kn.mp3" → text = ocrText env us req ∧ lang = "kn") ∧
      (nameHasSuffix path "_en.mp3" →
        text = env.translate (ocrText env us req) "en" ∧ lang = "en") ∧
      (nameHasSuffix path "_hi.mp3" →
        text = env.translate (ocrText env us req) "hi" ∧ lang = "hi") := by
  have hsuf : ∀ (nm suf : String), nameHasSuffix (AUDIO_DIR base ++ [nm ++ suf]) suf := by
    intro nm suf
    unfold nameHasSuffix os_basename
    simp only [List.getLastD_concat, String.data_append]
    exact List.suffix_append _ _
  refine ⟨⟨?_, hsuf _ _⟩, ⟨?_, hsuf _ _⟩, ⟨?_, hsuf _ _⟩, ?_⟩
  · simp [process, h1, h2, h3]
  · simp [process, h1, h2, h3]
  · simp [process, h1, h2, h3]
  · intro text lang path hmem
    simp only [process, h1, h2, h3, Bool.not_true, Bool.false_eq_true, if_false,
      reduceIte, List.mem_cons, List.not_mem_nil, or_false] at hmem
    have hbase : ∀ (nm : String), os_basename (AUDIO_DIR base ++ [nm]) = nm := by
      intro nm
      unfold os_basename
      simp [List.getLastD_concat]
    rcases hmem with h | h | h | h | h | h | h <;> cases h <;>
      refine ⟨?_, ?_, ?_⟩ <;> intro hs <;>
      unfold nameHasSuffix at hs <;>
      rw [hbase] at hs <;>
      first
        | exact ⟨rfl, rfl⟩
        | (exfalso
           have := suffix_eq_of_append (a := us.u1) hs rfl
           simp_all)
        | (exfalso
           have := suffix_eq_of_append (a := us.u2) hs rfl
           simp_all)
        | (exfalso
           have := suffix_eq_of_append (a := us.u3) hs rfl
           simp_all)

/-- C6 witness: the suffix/text/language association at a concrete
successful request. -/
theorem C6_audio_language_matches_text_witness :
    (Event.ttsCall (ocrText envW usW reqW) "kn" (AUDIO_DIR [] ++ [audioKnName usW])
        ∈ (process envW [] usW reqW).2 ∧
      nameHasSuffix (AUDIO_DIR [] ++ [audioKnName usW]) "_kn.mp3") ∧
    (Event.ttsCall (envW.translate (ocrText envW usW reqW) "en") "en"
        (AUDIO_DIR [] ++ [audioEnName usW]) ∈ (process envW [] usW reqW).2 ∧
      nameHasSuffix (AUDIO_DIR [] ++ [audioEnName usW]) "_en.mp3") ∧
    (Event.ttsCall (envW.translate (ocrText envW usW reqW) "hi") "hi"
        (AUDIO_DIR [] ++ [audioHiName usW]) ∈ (process envW [] usW reqW).2 ∧
      nameHasSuffix (AUDIO_DIR [] ++ [audioHiName usW]) "_hi.mp3") ∧
    ∀ text lang path, Event.ttsCall text lang path ∈ (process envW [] usW reqW).2 →
      (nameHasSuffix path "_kn.mp3" → text = ocrText envW usW reqW ∧ lang = "kn") ∧
      (nameHasSuffix path "_en.mp3" →
        text = envW.translate (ocrText envW usW reqW) "en" ∧ lang = "en") ∧
      (nameHasSuffix path "_hi.mp3" →
        text = envW.translate (ocrText envW usW reqW) "hi" ∧ lang = "hi") :=
  C6_audio_language_matches_text envW [] usW reqW (by decide) (by decide)
    (by decide)

/-- C7: two successful executions whose eight uuid draws are pairwise
distinct use exactly the generated filenames, their upload filenames differ,
and the six audio filenames are pairwise distinct, both within each request
and across the two requests. -/
theorem C7_distinct_filenames (env env2 : Env) (base base2 : List String)
    (us vs : Uuids) (req req2 : Request)
    (h1 : startswith req.content_type "image/" = true)
    (h2 : req.contents.isEmpty = false)
    (h3 : strip (ocrText env us req) ≠ "")
    (g1 : startswith req2.content_type "image/" = true)
    (g2 : req2.contents.isEmpty = false)
    (g3 : strip (ocrText env2 vs req2) ≠ "")
    (hd : List.Pairwise (fun a b => a ≠ b)
      [us.u0, us.u1, us.u2, us.u3, vs.u0, vs.u1, vs.u2, vs.u3]) :
    ((process env base us req).2.filter Event.isWrite).map Event.pathName
        = [uploadFilename us] ∧
    ((process env base us req).2.filter Event.isTts).map Event.pathName
        = [audioKnName us, audioEnName us, audioHiName us] ∧
    ((process env2 base2 vs req2).2.filter Event.isWrite).map Event.pathName
        = [uploadFilename vs] ∧
    ((process env2 base2 vs req2).2.filter Event.isTts).map Event.pathName
        = [audioKnName vs, audioEnName vs, audioHiName vs] ∧
    uploadFilename us ≠ uploadFilename vs ∧
    List.Pairwise (fun a b => a ≠ b)
      [audioKnName us, audioEnName us, audioHiName us,
       audioKnName vs, audioEnName vs, audioHiName vs] := by
  simp only [List.pairwise_cons, List.mem_cons, List.not_mem_nil] at hd
  obtain ⟨ha, hb, hc, hdd, _⟩ := hd
  have hu0 : us.u0 ≠ vs.u0 := ha vs.u0 (by simp)
  have hu1 : us.u1 ≠ vs.u1 := hb vs.u1 (by simp)
  have hu2 : us.u2 ≠ vs.u2 := hc vs.u2 (by simp)
  have hu3 : us.u3 ≠ vs.u3 := hdd vs.u3 (by simp)
  have knen : ∀ x y : Uuids, audioKnName x ≠ audioEnName y := fun x y =>
    append_ne_of_suffix_ne (by decide) (by decide)
  have knhi : ∀ x y : Uuids, audioKnName x ≠ audioHiName y := fun x y =>
    append_ne_of_suffix_ne (by decide) (by decide)
  have enhi : ∀ x y : Uuids, audioEnName x ≠ audioHiName y := fun x y =>
    append_ne_of_suffix_ne (by decide) (by decide)
  have enkn : ∀ x y : Uuids, audioEnName x ≠ audioKnName y := fun x y =>
    append_ne_of_suffix_ne (by decide) (by decide)
  have hikn : ∀ x y : Uuids, audioHiName x ≠ audioKnName y := fun x y =>
    append_ne_of_suffix_ne (by decide) (by decide)
  have hien : ∀ x y : Uuids, audioHiName x ≠ audioEnName y := fun x y =>
    append_ne_of_suffix_ne (by decide) (by decide)
  refine ⟨?_, ?_, ?_, ?_, ?_, ?_⟩
  · simp [process, h1, h2, h3, Event.isWrite, Event.isTts, Event.pathName,
      os_basename, List.getLastD_concat]
  · simp [process, h1, h2, h3, Event.isWrite, Event.isTts, Event.pathName,
      os_basename, List.getLastD_concat]
  · simp [process, g1, g2, g3, Event.isWrite, Event.isTts, Event.pathName,
      os_basename, List.getLastD_concat]
  · simp [process, g1, g2, g3, Event.isWrite, Event.isTts, Event.pathName,
      os_basename, List.getLastD_concat]
  · exact append_ne_of_left_ne _ hu0
  · simp only [List.pairwise_cons, List.mem_cons, List.not_mem_nil]
    refine ⟨?_, ?_, ?_, ?_, ?_, ⟨fun b hb => hb.elim, List.Pairwise.nil⟩⟩
    · intro b hb
      rcases hb with rfl | rfl | rfl | rfl | rfl | hF
      exacts [knen us us, knhi us us, append_ne_of_left_ne _ hu1,
        knen us vs, knhi us vs, hF.elim]
    · intro b hb
      rcases hb with rfl | rfl | rfl | rfl | hF
      exacts [enhi us us, enkn us vs, append_ne_of_left_ne _ hu2,
        enhi us vs, hF.elim]
    · intro b hb
      rcases hb with rfl | rfl | rfl | hF
      exacts [hikn us vs, hien us vs, append_ne_of_left_ne _ hu3, hF.elim]
    · intro b hb
      rcases hb with rfl | rfl | hF
      exacts [knen vs vs, knhi vs vs, hF.elim]
    · intro b hb
      rcases hb with rfl | hF
      exacts [enhi vs vs, hF.elim]

/-- C7 witness: two concrete executions with distinct uuid draws produce
pairwise distinct filenames. -/
theorem C7_distinct_filenames_witness :
    ((process envW [] usW reqW).2.filter Event.isWrite).map Event.pathName
        = [uploadFilename usW] ∧
    ((process envW [] usW reqW).2.filter Event.isTts).map Event.pathName
        = [audioKnName usW, audioEnName usW, audioHiName usW] ∧
    ((process envW [] usV reqW).2.filter Event.isWrite).map Event.pathName
        = [uploadFilename usV] ∧
    ((process envW [] usV reqW).2.filter Event.isTts).map Event.pathName
        = [audioKnName usV, audioEnName usV, audioHiName usV] ∧
    uploadFilename usW ≠ uploadFilename usV ∧
    List.Pairwise (fun a b => a ≠ b)
      [audioKnName usW, audioEnName usW, audioHiName usW,
       audioKnName usV, audioEnName usV, audioHiName usV] :=
  C7_distinct_filenames envW envW [] [] usW usV reqW reqW (by decide)
    (by decide) (by decide) (by decide) (by decide) (by decide) (by decide)

/-- C8: in every accepted execution, the image handed to the OCR adapter is
in RGB mode; the trace's unique OCR invocation receives exactly the decoded,
normalized image, and a decode that is already RGB is passed through
unchanged. -/
theorem C8_ocr_input_rgb
    (env : Env) (base : List String) (us : Uuids) (req : Request)
    (h1 : startswith req.content_type "image/" = true)
    (h2 : req.contents.isEmpty = false) :
    (∀ img fn, Event.ocrCall img fn ∈ (process env base us req).2 →
      img.mode = "RGB" ∧ img = ocrInput env req ∧ fn = uploadFilename us) ∧
    Event.ocrCall (ocrInput env req) (uploadFilename us)
      ∈ (process env base us req).2 ∧
    ((env.decode req.contents).mode = "RGB" →
      ocrInput env req = env.decode req.contents) := by
  have hmode : (ocrInput env req).mode = "RGB" := normalizeRGB_mode _
  refine ⟨?_, ?_, ?_⟩
  · intro img fn hmem
    by_cases hb : strip (ocrText env us req) = "" <;>
      simp [process, h1, h2, hb] at hmem <;>
      obtain ⟨rfl, rfl⟩ := hmem <;>
      exact ⟨hmode, rfl, rfl⟩
  · by_cases hb : strip (ocrText env us req) = "" <;> simp [process, h1, h2, hb]
  · intro hm
    unfold ocrInput normalizeRGB
    simp [hm]

/-- C8 witness: a concrete grayscale upload is converted to RGB before OCR. -/
theorem C8_ocr_input_rgb_witness :
    (∀ img fn, Event.ocrCall img fn ∈ (process envW [] usW reqW).2 →
      img.mode = "RGB" ∧ img = ocrInput envW reqW ∧ fn = uploadFilename usW) ∧
    Event.ocrCall (ocrInput envW reqW) (uploadFilename usW)
      ∈ (process envW [] usW reqW).2 ∧
    ((envW.decode reqW.contents).mode = "RGB" →
      ocrInput envW reqW = envW.decode reqW.contents) :=
  C8_ocr_input_rgb envW [] usW reqW (by decide) (by decide)

/-- C9: every accepted upload is written exactly under the generated name
`u0 ++ ".jpg"` with the original (unconverted) bytes, and every file write
of the execution stores a name ending in `".jpg"`, whatever the declared
image content type was. -/
theorem C9_upload_saved_as_jpg
    (env : Env) (base : List String) (us : Uuids) (req : Request)
    (h1 : startswith req.content_type "image/" = true)
    (h2 : req.contents.isEmpty = false) :
    Event.fileWrite (UPLOADS_DIR base ++ [uploadFilename us]) req.contents
      ∈ (process env base us req).2 ∧
    ∀ p c, Event.fileWrite p c ∈ (process env base us req).2 →
      os_basename p = uploadFilename us ∧ c = req.contents ∧
      List.IsSuffix ".jpg".data (os_basename p).data := by
  constructor
  · by_cases hb : strip (ocrText env us req) = "" <;> simp [process, h1, h2, hb]
  · intro p c hmem
    have hbase : os_basename (UPLOADS_DIR base ++ [uploadFilename us])
        = uploadFilename us := by
      unfold os_basename
      simp [List.getLastD_concat]
    by_cases hb : strip (ocrText env us req) = "" <;>
      simp [process, h1, h2, hb] at hmem <;>
      obtain ⟨rfl, rfl⟩ := hmem <;>
      refine ⟨hbase, rfl, ?_⟩ <;>
      · rw [hbase]
        unfold uploadFilename
        rw [String.data_append]
        exact List.suffix_append _ _

/-- C9 witness: a concrete PNG-typed upload is stored under a `.jpg` name
with its bytes unchanged. -/
theorem C9_upload_saved_as_jpg_witness :
    Event.fileWrite (UPLOADS_DIR [] ++ [uploadFilename usW]) reqW.contents
      ∈ (process envW [] usW reqW).2 ∧
    ∀ p c, Event.fileWrite p c ∈ (process envW [] usW reqW).2 →
      os_basename p = uploadFilename usW ∧ c = reqW.contents ∧
      List.IsSuffix ".jpg".data (os_basename p).data :=
  C9_upload_saved_as_jpg envW [] usW reqW (by decide) (by decide)

/-- C10: on the no-text short-circuit path the trace is exactly the upload
write followed by the OCR call (the write precedes OCR and is not undone),
and the payload's image URL names precisely the file written by this
request. -/
theorem C10_short_circuit_after_write
    (env : Env) (base : List String) (us : Uuids) (req : Request)
    (h1 : startswith req.content_type "image/" = true)
    (h2 : req.contents.isEmpty = false)
    (h3 : strip (ocrText env us req) = "") :
    (process env base us req).2 =
      [Event.fileWrite (UPLOADS_DIR base ++ [uploadFilename us]) req.contents,
       Event.ocrCall (ocrInput env req) (uploadFilename us)] ∧
    ∃ payload, (process env base us req).1 = .ok payload ∧
      payload.image_url =
        "/static/uploads/" ++ os_basename (UPLOADS_DIR base ++ [uploadFilename us]) ∧
      payload.error = some "No text found" := by
  have hbase : os_basename (UPLOADS_DIR base ++ [uploadFilename us])
      = uploadFilename us := by
    unfold os_basename
    simp [List.getLastD_concat]
  refine ⟨by simp [process, h1, h2, h3], ?_⟩
  exact ⟨{ image_url := "/static/uploads/" ++ uploadFilename us
           text_kn := ""
           audio_kn := none
           text_en := ""
           audio_en := none
           text_hi := ""
           audio_hi := none
           error := some "No text found" },
         by simp [process, h1, h2, h3], by rw [hbase], rfl⟩

/-- C10 witness: concrete short-circuit run whose upload was written first. -/
theorem C10_short_circuit_after_write_witness :
    (process envBlank [] usW reqW).2 =
      [Event.fileWrite (UPLOADS_DIR [] ++ [uploadFilename usW]) reqW.contents,
       Event.ocrCall (ocrInput envBlank reqW) (uploadFilename usW)] ∧
    ∃ payload, (process envBlank [] usW reqW).1 = .ok payload ∧
      payload.image_url =
        "/static/uploads/" ++ os_basename (UPLOADS_DIR [] ++ [uploadFilename usW]) ∧
      payload.error = some "No text found" :=
  C10_short_circuit_after_write envBlank [] usW reqW (by decide) (by decide)
    (by decide)

end OCRApp
